import Mathlib

/-!
Verification of the LinkedIn Prospect Finder application (src/app.py).

The development shallowly embeds the two reproducible pieces of the
program: the Search Adapter (the Exa tool that formats provider hits
into a tagged blob) and the Session/Flow Controller (the Streamlit
script rerun cycle over session state). External collaborators (the
Exa provider, the crew orchestration call) are modelled as oracle
parameters whose responses are inputs to the embedded functions.
-/

namespace ProspectFinder

/-- One search hit as returned by the provider: title, url and an
ordered list of highlight snippets. -/
structure SearchResult where
  title : String
  url : String
  highlights : List String
deriving Repr, DecidableEq

/-- The request the tool sends to the Exa SDK, with the keyword
arguments of the call at src/app.py lines 50-55. -/
structure ExaRequest where
  query : String
  type : String
  num_results : Nat
  highlights : Bool
deriving Repr, DecidableEq

/-- An opaque provider-side failure (network error, provider error,
timeout), raised by the SDK call. -/
structure ProviderError where
  msg : String
deriving Repr, DecidableEq

/-- The request built by search_and_get_contents_tool for a question:
semantic (neural) search, exactly 3 results, highlights enabled. -/
def exaRequest (question : String) : ExaRequest :=
  { query := question, type := "neural", num_results := 3, highlights := true }

/-- The tagged segment emitted for the hit at rank idx: the three
f-strings of src/app.py lines 58-60, concatenated. The highlight
snippets are joined with no separator. -/
def resultSegment (idx : Nat) (r : SearchResult) : String :=
  "<Title id=" ++ toString idx ++ ">" ++ r.title ++ "</Title>" ++
  "<URL id=" ++ toString idx ++ ">" ++ r.url ++ "</URL>" ++
  "<Highlight id=" ++ toString idx ++ ">" ++ String.join r.highlights ++ "</Highlight>"

/-- The FormattedResultBlob: the join over the enumerated result list
of src/app.py lines 57-62. -/
def parsedResult (results : List SearchResult) : String :=
  String.join (results.enum.map fun p => resultSegment p.1 p.2)

/-- The body of search_and_get_contents_tool (src/app.py lines 44-64),
with the Exa SDK call abstracted as an oracle from requests to
responses. The first component records the requests issued to the
provider, in order: the body performs exactly one call, and an error
outcome of that call is not caught inside the tool. -/
def search_and_get_contents_tool
    (provider : ExaRequest → Except ProviderError (List SearchResult))
    (question : String) : List ExaRequest × Except ProviderError String :=
  let req := exaRequest question
  match provider req with
  | .error e => ([req], .error e)
  | .ok results => ([req], .ok (parsedResult results))

/-- Modelled from the spec: the serialization contract of section 4.1,
one tagged triple per hit at rank i starting from a given rank, in
order. Used to compare the code serializer against the spec wording. -/
def specSegments : Nat → List SearchResult → List String
  | _, [] => []
  | i, r :: rs => resultSegment i r :: specSegments (i + 1) rs

/-- The blob the spec describes: the concatenation of one segment per
hit, ranks counted from i. -/
def specBlob (i : Nat) (rs : List SearchResult) : String :=
  String.join (specSegments i rs)

/-- The property that a blob is exactly three tagged triples with
indices 0, 1, 2 for some hits, in that order. -/
def ContainsExactlyThreeTriples (blob : String) : Prop :=
  ∃ r0 r1 r2 : SearchResult,
    blob = resultSegment 0 r0 ++ resultSegment 1 r1 ++ resultSegment 2 r2

/-!  The Session/Flow Controller: the Streamlit script body
(src/app.py lines 124-197) as a function of the session state and of
the events of one script run.  st.rerun and st.stop halt the current
run, so each branch that calls them ends the function. -/

/-- Python lowercasing of a string, character by character, as
str.lower does on each character of the ASCII company names the UI
takes. -/
def lowerStr (s : String) : String :=
  String.mk (s.data.map Char.toLower)

/-- Python str.replace for a one-character pattern and one-character
replacement: every occurrence of pat becomes rep. -/
def replaceChar (pat rep : Char) (s : String) : String :=
  String.mk (s.data.map fun c => if c = pat then rep else c)

/-- The download file name of src/app.py line 195:
linkedin_prospects_ then the lowercased, space-to-underscore company
name, then .md . -/
def downloadFileName (company_name : String) : String :=
  "linkedin_prospects_" ++ replaceChar ' ' '_' (lowerStr company_name) ++ ".md"

/-- The per-session state kept in st.session_state: the stored crew
output (None at session start) and the is_running flag.  The crew
output object is modelled by the string it renders to. -/
structure SessionState where
  results : Option String
  is_running : Bool
deriving Repr, DecidableEq

/-- The outcome of the blocking crew.kickoff call, when one happens
during a run: the final text, or an exception message. -/
inductive CrewOutcome where
  | success (output : String)
  | failure (errMsg : String)
deriving Repr, DecidableEq

/-- The inputs of one script run: the current value of the company
name text field, whether each button received a click this run, and
the oracle outcome of the crew call should one be made. -/
structure ScriptInput where
  company_name : String
  search_clicked : Bool
  clear_clicked : Bool
  crew : CrewOutcome
deriving Repr, DecidableEq

/-- The observable actions of one script run: the query passed to
crew.kickoff if it was invoked, the file name on the download button
if it was rendered, and whether an error message was shown. -/
structure ScriptOutput where
  kickoffQuery : Option String
  downloadFilename : Option String
  errorShown : Bool
deriving Repr, DecidableEq

/-- The disabled flag of the Find Prospects button (src/app.py line
137): not company_name or st.session_state.is_running . -/
def searchButtonDisabled (s : SessionState) (company_name : String) : Bool :=
  company_name == "" || s.is_running

/-- One Streamlit script run (src/app.py lines 124-197).  A disabled
button cannot return True, so the search button value is the click
gated by the disabled flag; the Clear Results button is only rendered
when results is truthy (line 144); st.rerun ends the run where it is
called, so the branches of lines 147, 167, 177 and 182 return
immediately and the result display of lines 185-197 only happens on a
run that reaches it. -/
def runScript (s : SessionState) (inp : ScriptInput) : SessionState × ScriptOutput :=
  let company_name := inp.company_name
  let search_button := inp.search_clicked && !(searchButtonDisabled s company_name)
  if s.results.isSome && inp.clear_clicked then
    ({ s with results := none },
     { kickoffQuery := none, downloadFilename := none, errorShown := false })
  else if search_button && !(company_name == "") then
    ({ s with is_running := true },
     { kickoffQuery := none, downloadFilename := none, errorShown := false })
  else if s.is_running then
    match inp.crew with
    | .success out =>
        ({ results := some out, is_running := false },
         { kickoffQuery := some company_name, downloadFilename := none, errorShown := false })
    | .failure _ =>
        ({ s with is_running := false },
         { kickoffQuery := some company_name, downloadFilename := none, errorShown := true })
  else if s.results.isSome then
    (s, { kickoffQuery := none,
          downloadFilename := some (downloadFileName company_name), errorShown := false })
  else
    (s, { kickoffQuery := none, downloadFilename := none, errorShown := false })

/-!  Startup: the secrets check of src/app.py lines 25-41. -/

/-- The platform secret store, holding the two required credentials
when present. -/
structure Secrets where
  openaiKey : Option String
  exaKey : Option String
deriving Repr, DecidableEq

/-- The result of the startup block: either the script halted at
st.stop after showing the error and the setup instructions, or both
keys were read and execution continues. -/
inductive StartupOutcome where
  | halted (errorShown : Bool) (instructionsShown : Bool)
  | started (openai_api_key : String) (exa_api_key : String)
deriving Repr, DecidableEq

/-- The try block of src/app.py lines 25-41: reading a missing key
raises KeyError, which is caught by showing an error message and the
secrets.toml instructions and calling st.stop . -/
def startup (secrets : Secrets) : StartupOutcome :=
  match secrets.openaiKey with
  | none => .halted true true
  | some o =>
    match secrets.exaKey with
    | none => .halted true true
    | some e => .started o e

/-- The whole script: the startup block, then one run of the body.
When startup halts, no widget is rendered and no action is possible,
so the run yields nothing. -/
def appScript (secrets : Secrets) (s : SessionState) (inp : ScriptInput) :
    Option (SessionState × ScriptOutput) :=
  match startup secrets with
  | .halted _ _ => none
  | .started _ _ => some (runScript s inp)

/-!  Helper lemmas. -/

/-- Joining a list of strings peels off the head. -/
theorem join_cons (a : String) (l : List String) :
    String.join (a :: l) = a ++ String.join l := by
  simp only [String.join]
  rw [List.foldl_cons]
  have h : ∀ (l : List String) (x y : String),
      l.foldl (· ++ ·) (x ++ y) = x ++ l.foldl (· ++ ·) y := by
    intro l
    induction l with
    | nil => intro x y; rfl
    | cons b bs ih =>
        intro x y
        simp only [List.foldl_cons, String.append_assoc, ih]
  simpa using h l a ""

/-- The enumerate-join of the code equals the recursive spec blob,
from any starting rank. -/
theorem join_enumFrom_eq_specBlob (rs : List SearchResult) : ∀ i : Nat,
    String.join ((List.enumFrom i rs).map fun p => resultSegment p.1 p.2) =
      specBlob i rs := by
  induction rs with
  | nil => intro i; rfl
  | cons r rs ih =>
      intro i
      simp only [List.enumFrom, List.map_cons, join_cons, specBlob, specSegments, ih]

/-- The spec blob has one segment per hit. -/
theorem specSegments_length (rs : List SearchResult) : ∀ i : Nat,
    (specSegments i rs).length = rs.length := by
  induction rs with
  | nil => intro i; rfl
  | cons r rs ih => intro i; simp [specSegments, ih]

/-- Every tagged segment is a nonempty string. -/
theorem resultSegment_length_pos (i : Nat) (r : SearchResult) :
    0 < (resultSegment i r).length := by
  have h10 : ("<Title id=" : String).length = 10 := rfl
  simp only [resultSegment, String.length_append]
  omega

/-!  Claim theorems. -/

/-- Claim C2: for the provider response [{title A, url u1, highlights
[h1]}] the blob is exactly the three tagged segments for index 0
concatenated, with no extra whitespace. -/
theorem single_result_blob_exact :
    parsedResult [{ title := "A", url := "u1", highlights := ["h1"] }] =
      "<Title id=0>A</Title>" ++ "<URL id=0>u1</URL>" ++ "<Highlight id=0>h1</Highlight>" := by
  decide

/-- Claim C9: the serializer is the concatenation of one tagged
segment per provider hit in enumeration order, with ranks 0 to n-1,
so n hits give n triples and zero hits give the empty string. -/
theorem serializer_segmentwise (rs : List SearchResult) :
    parsedResult rs = specBlob 0 rs ∧
    (specSegments 0 rs).length = rs.length ∧
    parsedResult ([] : List SearchResult) = "" := by
  refine ⟨?_, specSegments_length rs 0, rfl⟩
  have h := join_enumFrom_eq_specBlob rs 0
  simpa [parsedResult, List.enum] using h

/-- Claim C9 witness: the characterization evaluated on a concrete
two-hit response. -/
theorem serializer_segmentwise_witness :
    parsedResult [⟨"A", "u1", ["h1"]⟩, ⟨"B", "u2", ["h2", "h3"]⟩] =
      specBlob 0 [⟨"A", "u1", ["h1"]⟩, ⟨"B", "u2", ["h2", "h3"]⟩] ∧
    (specSegments 0 [⟨"A", "u1", ["h1"]⟩, ⟨"B", "u2", ["h2", "h3"]⟩]).length = 2 ∧
    parsedResult ([] : List SearchResult) = "" :=
  serializer_segmentwise [⟨"A", "u1", ["h1"]⟩, ⟨"B", "u2", ["h2", "h3"]⟩]

/-- Claim C1 counterexample: a provider may return fewer hits than the
3 requested; on an empty response the tool returns the empty blob,
which does not contain three tagged triples. -/
theorem adapter_zero_results_no_three_triples :
    (search_and_get_contents_tool (fun _ => .ok []) "Acme Corp").2 = .ok "" ∧
    ¬ ContainsExactlyThreeTriples "" := by
  constructor
  · rfl
  · rintro ⟨r0, r1, r2, h⟩
    have hlen := congrArg String.length h
    have h0 := resultSegment_length_pos 0 r0
    have he : ("" : String).length = 0 := rfl
    simp only [String.length_append, he] at hlen
    omega

/-- Claim C1 amended: for every non-empty query the tool issues
exactly one request, semantic (neural) with exactly 3 results and
highlights enabled, and when the provider returns exactly 3 hits the
blob is exactly the three tagged triples with indices 0, 1, 2 in
provider order. -/
theorem adapter_request_and_three_triples
    (provider : ExaRequest → Except ProviderError (List SearchResult))
    (q : String) (_hq : q ≠ "") (r0 r1 r2 : SearchResult)
    (hp : provider (exaRequest q) = .ok [r0, r1, r2]) :
    (search_and_get_contents_tool provider q).1 = [exaRequest q] ∧
    (exaRequest q).num_results = 3 ∧
    (exaRequest q).type = "neural" ∧
    (exaRequest q).highlights = true ∧
    (search_and_get_contents_tool provider q).2 =
      .ok (resultSegment 0 r0 ++ resultSegment 1 r1 ++ resultSegment 2 r2) := by
  refine ⟨?_, rfl, rfl, rfl, ?_⟩
  · simp [search_and_get_contents_tool, hp]
  · have hpr : parsedResult [r0, r1, r2] =
        resultSegment 0 r0 ++ resultSegment 1 r1 ++ resultSegment 2 r2 := rfl
    simp [search_and_get_contents_tool, hp, hpr]

/-- Claim C1 witness: the amended statement at a concrete query and a
concrete three-hit provider. -/
theorem adapter_request_and_three_triples_witness :
    (search_and_get_contents_tool
        (fun _ => .ok [⟨"A", "u1", ["h1"]⟩, ⟨"B", "u2", ["h2"]⟩, ⟨"C", "u3", ["h3"]⟩])
        "Acme Corp").1 = [exaRequest "Acme Corp"] ∧
    (exaRequest "Acme Corp").num_results = 3 ∧
    (exaRequest "Acme Corp").type = "neural" ∧
    (exaRequest "Acme Corp").highlights = true ∧
    (search_and_get_contents_tool
        (fun _ => .ok [⟨"A", "u1", ["h1"]⟩, ⟨"B", "u2", ["h2"]⟩, ⟨"C", "u3", ["h3"]⟩])
        "Acme Corp").2 =
      .ok (resultSegment 0 ⟨"A", "u1", ["h1"]⟩ ++ resultSegment 1 ⟨"B", "u2", ["h2"]⟩ ++
           resultSegment 2 ⟨"C", "u3", ["h3"]⟩) :=
  adapter_request_and_three_triples _ "Acme Corp" (by decide) _ _ _ rfl

/-- Claim C6: when the provider call fails, the error propagates out
of the tool uncaught; the tool issues exactly one request (no retry,
no pagination), and the serializer keeps duplicate hits (no
deduplication). -/
theorem provider_error_propagates
    (provider : ExaRequest → Except ProviderError (List SearchResult))
    (q : String) (e : ProviderError)
    (hp : provider (exaRequest q) = .error e) :
    (search_and_get_contents_tool provider q).2 = .error e ∧
    (search_and_get_contents_tool provider q).1 = [exaRequest q] ∧
    (∀ r : SearchResult, parsedResult [r, r] = resultSegment 0 r ++ resultSegment 1 r) := by
  refine ⟨?_, ?_, ?_⟩
  · simp [search_and_get_contents_tool, hp]
  · simp [search_and_get_contents_tool, hp]
  · intro r
    rfl

/-- Claim C6 witness: a concrete provider timeout propagates from a
concrete query. -/
theorem provider_error_propagates_witness :
    (search_and_get_contents_tool (fun _ => .error ⟨"timeout"⟩) "Acme Corp").2 =
      .error ⟨"timeout"⟩ ∧
    (search_and_get_contents_tool (fun _ => .error ⟨"timeout"⟩) "Acme Corp").1 =
      [exaRequest "Acme Corp"] :=
  ⟨(provider_error_propagates (fun _ => .error ⟨"timeout"⟩) "Acme Corp" ⟨"timeout"⟩ rfl).1,
   (provider_error_propagates (fun _ => .error ⟨"timeout"⟩) "Acme Corp" ⟨"timeout"⟩ rfl).2.1⟩

/-- Claim C3: when the crew call fails during a running script run,
is_running becomes false, the stored results are exactly what they
were before the attempt, and an error message is shown. -/
theorem provider_failure_keeps_results (s : SessionState) (inp : ScriptInput) (msg : String)
    (hrun : s.is_running = true) (hclear : inp.clear_clicked = false)
    (hcrew : inp.crew = CrewOutcome.failure msg) :
    (runScript s inp).1.is_running = false ∧
    (runScript s inp).1.results = s.results ∧
    (runScript s inp).2.errorShown = true := by
  simp [runScript, searchButtonDisabled, hrun, hclear, hcrew]

/-- Claim C3 witness: a concrete failed run keeps the stored results
and clears the running flag. -/
theorem provider_failure_keeps_results_witness :
    (runScript ⟨some "old table", true⟩
        ⟨"Acme Corp", false, false, CrewOutcome.failure "boom"⟩).1.is_running = false ∧
    (runScript ⟨some "old table", true⟩
        ⟨"Acme Corp", false, false, CrewOutcome.failure "boom"⟩).1.results = some "old table" ∧
    (runScript ⟨some "old table", true⟩
        ⟨"Acme Corp", false, false, CrewOutcome.failure "boom"⟩).2.errorShown = true :=
  provider_failure_keeps_results ⟨some "old table", true⟩
    ⟨"Acme Corp", false, false, CrewOutcome.failure "boom"⟩ "boom" rfl rfl rfl

/-- Claim C4: while is_running is true the submit control is disabled,
so a submit click changes nothing: the run has the same state and the
same observable output as the run without the click. -/
theorem running_submit_is_noop (s : SessionState) (inp : ScriptInput)
    (hrun : s.is_running = true) :
    searchButtonDisabled s inp.company_name = true ∧
    runScript s inp = runScript s { inp with search_clicked := false } := by
  constructor
  · simp [searchButtonDisabled, hrun]
  · simp [runScript, searchButtonDisabled, hrun]

/-- Claim C4 witness: a concrete submit click during a running session
is identical to no click. -/
theorem running_submit_is_noop_witness :
    searchButtonDisabled ⟨none, true⟩ "Acme Corp" = true ∧
    runScript ⟨none, true⟩ ⟨"Acme Corp", true, false, CrewOutcome.success "t"⟩ =
      runScript ⟨none, true⟩ ⟨"Acme Corp", false, false, CrewOutcome.success "t"⟩ :=
  running_submit_is_noop ⟨none, true⟩ ⟨"Acme Corp", true, false, CrewOutcome.success "t"⟩ rfl

/-- Claim C8: clicking Clear Results while results are displayed and
nothing is running empties the stored results and leaves the running
flag false. -/
theorem clear_results_transition (s : SessionState) (inp : ScriptInput) (r : String)
    (hres : s.results = some r) (hrun : s.is_running = false)
    (hclear : inp.clear_clicked = true) :
    (runScript s inp).1 = { results := none, is_running := false } ∧
    (runScript s inp).2.kickoffQuery = none := by
  cases s with
  | mk res running =>
      simp_all [runScript]

/-- Claim C8 witness: clearing a concrete displayed result. -/
theorem clear_results_transition_witness :
    (runScript ⟨some "table", false⟩
        ⟨"Acme Corp", false, true, CrewOutcome.success "t"⟩).1 =
      { results := none, is_running := false } ∧
    (runScript ⟨some "table", false⟩
        ⟨"Acme Corp", false, true, CrewOutcome.success "t"⟩).2.kickoffQuery = none :=
  clear_results_transition ⟨some "table", false⟩
    ⟨"Acme Corp", false, true, CrewOutcome.success "t"⟩ "table" rfl rfl rfl

/-- Claim C5: on a displaying run the download button carries the
fixed prefix, then the lowercased space-to-underscore company name,
then the markdown extension; for Acme Corp that is exactly
linkedin_prospects_acme_corp.md . -/
theorem download_filename_pattern (s : SessionState) (inp : ScriptInput) (r : String)
    (hres : s.results = some r) (hrun : s.is_running = false)
    (hclear : inp.clear_clicked = false) (hsearch : inp.search_clicked = false) :
    (runScript s inp).2.downloadFilename =
      some ("linkedin_prospects_" ++ replaceChar ' ' '_' (lowerStr inp.company_name) ++ ".md") ∧
    downloadFileName "Acme Corp" = "linkedin_prospects_acme_corp.md" := by
  constructor
  · simp [runScript, searchButtonDisabled, hres, hrun, hclear, hsearch, downloadFileName]
  · decide

/-- Claim C5 witness: the download file name rendered for the company
name Acme Corp. -/
theorem download_filename_pattern_witness :
    (runScript ⟨some "table", false⟩
        ⟨"Acme Corp", false, false, CrewOutcome.success "t"⟩).2.downloadFilename =
      some "linkedin_prospects_acme_corp.md" := by
  have h := download_filename_pattern ⟨some "table", false⟩
    ⟨"Acme Corp", false, false, CrewOutcome.success "t"⟩ "table" rfl rfl rfl rfl
  rw [h.1]
  decide

/-- Claim C6 note shares the adapter model; claim C7: a missing
credential at startup shows the error and the setup instructions and
halts before any widget of the body can run. -/
theorem missing_credential_is_fatal (secrets : Secrets) (s : SessionState) (inp : ScriptInput)
    (h : secrets.openaiKey = none ∨ secrets.exaKey = none) :
    startup secrets = StartupOutcome.halted true true ∧
    appScript secrets s inp = none := by
  rcases h with h | h
  · simp [startup, appScript, h]
  · cases ho : secrets.openaiKey <;> simp [startup, appScript, h, ho]

/-- Claim C7 witness: startup with a missing LLM key halts a concrete
session. -/
theorem missing_credential_is_fatal_witness :
    startup ⟨none, some "exa-key"⟩ = StartupOutcome.halted true true ∧
    appScript ⟨none, some "exa-key"⟩ ⟨none, false⟩
      ⟨"Acme Corp", true, false, CrewOutcome.success "t"⟩ = none :=
  missing_credential_is_fatal ⟨none, some "exa-key"⟩ ⟨none, false⟩
    ⟨"Acme Corp", true, false, CrewOutcome.success "t"⟩ (Or.inl rfl)

/-- Claim C10: both the crew query and the download file name are
computed from the company name field value of the current run, for
any stored state, so a changed field value yields a file name for the
new value even though the displayed results came from an older query. -/
theorem current_field_value_used (s : SessionState) (inp : ScriptInput)
    (hclear : inp.clear_clicked = false) :
    (s.is_running = true → (runScript s inp).2.kickoffQuery = some inp.company_name) ∧
    (s.is_running = false → s.results.isSome = true → inp.search_clicked = false →
      (runScript s inp).2.downloadFilename = some (downloadFileName inp.company_name)) := by
  constructor
  · intro hrun
    cases hcrew : inp.crew <;>
      simp [runScript, searchButtonDisabled, hclear, hrun, hcrew]
  · intro hrun hres hsearch
    simp [runScript, searchButtonDisabled, hclear, hrun, hres, hsearch, downloadFileName]

/-- Claim C10 witness: results produced under one query are offered
for download under the file name of the newly typed company name. -/
theorem current_field_value_used_witness :
    (runScript ⟨some "results for Acme Corp", false⟩
        ⟨"Globex Inc", false, false, CrewOutcome.success "t"⟩).2.downloadFilename =
      some (downloadFileName "Globex Inc") :=
  (current_field_value_used ⟨some "results for Acme Corp", false⟩
    ⟨"Globex Inc", false, false, CrewOutcome.success "t"⟩ rfl).2 rfl rfl rfl

end ProspectFinder
